import Mathlib

/-!
Verification of the emergency-routing core: hospital-selection optimizer,
readiness prediction, traffic estimation cache, GPS trip monitor and the
hash-chained audit ledger.  Numbers that JavaScript handles as IEEE doubles
are modelled as exact rationals; `Math.round` is modelled as `jsRound`
(floor of x + 1/2, which matches JavaScript round-half-toward-+∞).
-/

/-- JavaScript `Math.round`: rounds half away from zero toward +∞,
which is `⌊x + 1/2⌋` for every real argument. -/
def jsRound (x : ℚ) : ℤ := ⌊x + 1/2⌋

theorem jsRound_monotone {x y : ℚ} (h : x ≤ y) : jsRound x ≤ jsRound y := by
  exact Int.floor_le_floor (by linarith)

theorem jsRound_nonneg {x : ℚ} (h : 0 ≤ x) : 0 ≤ jsRound x := by
  have : (0 : ℚ) ≤ x + 1/2 := by linarith
  exact Int.le_floor.mpr (by exact_mod_cast this)

namespace Prediction

/-- One forecast point as produced by `predictWithLSTM` /
`simplePrediction` (timestamps elided; values are integers after the
source's clamping and rounding). -/
structure PredPoint where
  horizon : ℕ
  predictedBeds : ℤ
  predictedICU : ℤ
  confidence : ℚ
deriving DecidableEq, Repr

/-- `calculateResourceReadiness(available, total)` from
`predictionService.js`: zero when `total === 0`, otherwise
`Math.min(100, Math.round(available / total * 100))`. -/
def calculateResourceReadiness (available total : ℤ) : ℤ :=
  if total = 0 then 0
  else min 100 (jsRound ((available : ℚ) / (total : ℚ) * 100))

/-- Confidence label from `getConfidenceLevel`. -/
def getConfidenceLevel (confidence : ℚ) : String :=
  if confidence ≥ 8/10 then "high"
  else if confidence ≥ 6/10 then "medium"
  else "low"

/-- Per-point readiness record built inside `predictHospitalReadiness`. -/
structure ReadinessScore where
  point : PredPoint
  bedReadiness : ℤ
  icuReadiness : ℤ
  compositeScore : ℤ
  confidenceLevel : String
deriving DecidableEq, Repr

/-- The mapping step of `predictHospitalReadiness`: for each prediction
point, bed/ICU readiness via `calculateResourceReadiness` (the source
re-applies `Math.round` to the already-integral readiness, a no-op) and
the 40%/60% weighted composite. -/
def predictHospitalReadinessScores (preds : List PredPoint)
    (totalBeds totalICU : ℤ) : List ReadinessScore :=
  preds.map fun pred =>
    let bedReadiness := calculateResourceReadiness pred.predictedBeds totalBeds
    let icuReadiness := calculateResourceReadiness pred.predictedICU totalICU
    { point := pred
      bedReadiness := bedReadiness
      icuReadiness := icuReadiness
      compositeScore := jsRound ((bedReadiness : ℚ) * (4/10) + (icuReadiness : ℚ) * (6/10))
      confidenceLevel := getConfidenceLevel pred.confidence }

end Prediction

namespace Optimization

/-- A patient's condition as consumed by the optimizer: severity and
condition are the raw strings the source compares against, the required
specialty is optional. -/
structure PatientCondition where
  severity : String
  condition : String
  requiredSpecialty : Option String
deriving DecidableEq, Repr

/-- A hospital prediction as consumed by `calculateAvailabilityScore`:
the (possibly empty) list of forecast points. -/
structure HospitalPrediction where
  predictions : List Prediction.PredPoint
deriving DecidableEq, Repr

/-- `calculateAvailabilityScore(prediction, patientCondition)` from
`gpsMonitoringService.js` (OptimizationService): for severe/critical
patients `Math.round(predICU / Math.max(1, predICU + 2) * 100)`, else
`Math.round(Math.min(100, predBeds / Math.max(10, predBeds + 5) * 100))`;
50 when no forecast point exists. -/
def calculateAvailabilityScore (prediction : HospitalPrediction)
    (patientCondition : PatientCondition) : ℤ :=
  let isCritical := patientCondition.severity = "critical" ∨
                    patientCondition.severity = "severe"
  match prediction.predictions.head? with
  | none => 50
  | some pred =>
    if isCritical then
      jsRound ((pred.predictedICU : ℚ) / (max 1 ((pred.predictedICU : ℚ) + 2)) * 100)
    else
      jsRound (min 100 ((pred.predictedBeds : ℚ) / (max 10 ((pred.predictedBeds : ℚ) + 5)) * 100))

/-- The availability sub-score exactly as claim C4 words it (for the
refinement comparison): denominators `predICU + 2` and `predBeds + 5`
without the source's `Math.max` floors. -/
def claimedAvailabilityScore (prediction : HospitalPrediction)
    (patientCondition : PatientCondition) : ℤ :=
  let isCritical := patientCondition.severity = "critical" ∨
                    patientCondition.severity = "severe"
  match prediction.predictions.head? with
  | none => 50
  | some pred =>
    if isCritical then
      jsRound (100 * (pred.predictedICU : ℚ) / ((pred.predictedICU : ℚ) + 2))
    else
      jsRound (min 100 (100 * (pred.predictedBeds : ℚ) / ((pred.predictedBeds : ℚ) + 5)))

end Optimization

namespace Traffic

/-- A geographic coordinate pair (`{latitude, longitude}` objects). -/
structure Coordinate where
  latitude : ℚ
  longitude : ℚ
deriving DecidableEq, Repr

/-- One instruction of the placeholder route from `generateSimpleRoute`. -/
structure RouteInstruction where
  distance : ℚ
  heading : ℤ
  maneuver : String
deriving DecidableEq, Repr

/-- The route object of `generateSimpleRoute`. -/
structure RouteInfo where
  kind : String
  instructions : List RouteInstruction
  coordinates : List (ℚ × ℚ)
deriving DecidableEq, Repr

/-- The result object of `getTravelTime` (`updatedAt` as a millisecond
timestamp). -/
structure TravelResult where
  distance : ℚ
  duration : ℤ
  durationInTraffic : ℤ
  trafficCondition : String
  speedAverage : ℤ
  route : RouteInfo
  updatedAt : ℤ
deriving DecidableEq, Repr

/-- The cache key template
`\x7borigin.latitude},\x7borigin.longitude}-\x7bdestination.latitude},\x7bdestination.longitude}`:
since JavaScript number formatting is injective, the key is modelled as the
quadruple of the four raw (unrounded) coordinates. -/
structure CacheKey where
  originLatitude : ℚ
  originLongitude : ℚ
  destinationLatitude : ℚ
  destinationLongitude : ℚ
deriving DecidableEq, Repr

/-- Build the cache key for an origin/destination pair. -/
def cacheKey (origin destination : Coordinate) : CacheKey :=
  { originLatitude := origin.latitude
    originLongitude := origin.longitude
    destinationLatitude := destination.latitude
    destinationLongitude := destination.longitude }

/-- One value stored in `this.trafficCache`. -/
structure CacheEntry where
  data : TravelResult
  timestamp : ℤ
deriving DecidableEq, Repr

/-- The mutable state of the traffic service: the cache map, modelled as
an association list whose first matching key wins (JavaScript `Map`). -/
structure TrafficState where
  trafficCache : List (CacheKey × CacheEntry)
deriving DecidableEq, Repr

/-- `this.cacheExpiry = 5 * 60 * 1000` (milliseconds). -/
def cacheExpiry : ℤ := 5 * 60 * 1000

/-- `Map.prototype.get` on the association list. -/
def findEntry (key : CacheKey) : List (CacheKey × CacheEntry) → Option CacheEntry
  | [] => none
  | (k, e) :: rest => if k = key then some e else findEntry key rest

/-- `Map.prototype.set`: replace any entry with the same key. -/
def setEntry (key : CacheKey) (entry : CacheEntry)
    (cache : List (CacheKey × CacheEntry)) : List (CacheKey × CacheEntry) :=
  (key, entry) :: cache.filter (fun p => decide (p.1 ≠ key))

/-- `getTrafficCondition` (mock-data path) as a function of the current
hour: 7-9 and 17-19 heavy, 9-17 moderate, otherwise light. -/
def getTrafficCondition (hour : ℕ) : String :=
  if (7 ≤ hour ∧ hour ≤ 9) ∨ (17 ≤ hour ∧ hour ≤ 19) then "heavy"
  else if 9 ≤ hour ∧ hour ≤ 17 then "moderate"
  else "light"

/-- The three numbers returned by `calculateTravelTimeWithTraffic`. -/
structure TravelTime where
  duration : ℤ
  durationInTraffic : ℤ
  speedAverage : ℤ
deriving DecidableEq, Repr

/-- `this.config.defaultSpeedKmh = 40`. -/
def defaultSpeedKmh : ℚ := 40

/-- `calculateTravelTimeWithTraffic(distance, trafficCondition, vehicleType)`:
condition multiplier (light 1.2, moderate 1.0, heavy 0.6, default 1.0),
ambulances get a further ×1.15, durations in rounded minutes. -/
def calculateTravelTimeWithTraffic (distance : ℚ) (trafficCondition : String)
    (vehicleType : String) : TravelTime :=
  let pair : ℚ × ℚ :=
    match trafficCondition with
    | "light" => (12/10, defaultSpeedKmh * (12/10))
    | "moderate" => (1, defaultSpeedKmh)
    | "heavy" => (6/10, defaultSpeedKmh * (6/10))
    | _ => (1, defaultSpeedKmh)
  let speedMultiplier := if vehicleType = "ambulance" then pair.1 * (115/100) else pair.1
  let baseSpeed := pair.2
  { duration := jsRound (distance / baseSpeed * 60)
    durationInTraffic := jsRound (distance / (baseSpeed * speedMultiplier) * 60)
    speedAverage := jsRound (baseSpeed * speedMultiplier) }

section Service

-- The haversine kernel `calculateDistance` (km) and the `atan2`-based
-- `calculateHeading` are transcendental; the service model is
-- parametrized by them.
variable (dist : Coordinate → Coordinate → ℚ) (headingFn : Coordinate → Coordinate → ℤ)

/-- `generateSimpleRoute(origin, destination)`. -/
def generateSimpleRoute (origin destination : Coordinate) : RouteInfo :=
  { kind := "fastest"
    instructions := [{ distance := dist origin destination
                       heading := headingFn origin destination
                       maneuver := "depart" }]
    coordinates := [(origin.latitude, origin.longitude),
                    (destination.latitude, destination.longitude)] }

/-- The cache-miss path of `getTravelTime`: distance, traffic condition
from the current hour, durations, route, `updatedAt := now`. -/
def computeTravelResult (hour : ℕ) (origin destination : Coordinate)
    (vehicleType : String) (now : ℤ) : TravelResult :=
  let distance := dist origin destination
  let trafficCondition := getTrafficCondition hour
  let travelTime := calculateTravelTimeWithTraffic distance trafficCondition vehicleType
  { distance := (jsRound (distance * 10) : ℚ) / 10
    duration := travelTime.duration
    durationInTraffic := travelTime.durationInTraffic
    trafficCondition := trafficCondition
    speedAverage := travelTime.speedAverage
    route := generateSimpleRoute dist headingFn origin destination
    updatedAt := now }

/-- `getTravelTime(origin, destination, vehicleType)` over an explicit
state and clock: return the cached data when the entry is younger than
`cacheExpiry`, otherwise compute a fresh result and cache it. -/
def getTravelTime (hour : ℕ) (st : TrafficState) (origin destination : Coordinate)
    (vehicleType : String) (now : ℤ) : TravelResult × TrafficState :=
  let key := cacheKey origin destination
  let fresh := computeTravelResult dist headingFn hour origin destination vehicleType now
  match findEntry key st.trafficCache with
  | some cached =>
    if now - cached.timestamp < cacheExpiry then (cached.data, st)
    else (fresh, { trafficCache := setEntry key { data := fresh, timestamp := now } st.trafficCache })
  | none => (fresh, { trafficCache := setEntry key { data := fresh, timestamp := now } st.trafficCache })

end Service

end Traffic


namespace Optimization

/-- A hospital specialist record (`{specialty, available}`). -/
structure Specialist where
  specialty : String
  available : Bool
deriving DecidableEq, Repr

/-- Hospital capacity block. -/
structure Capacity where
  totalBeds : ℤ
  availableBeds : ℤ
  totalICU : ℤ
  availableICU : ℤ
deriving DecidableEq, Repr

/-- A candidate hospital as consumed by the optimizer (`_id` is modelled
as `hospitalId`; `equipment` is the object of boolean flags, modelled as
an association list). -/
structure Hospital where
  hospitalId : String
  name : String
  location : Traffic.Coordinate
  address : String
  specialists : List Specialist
  equipment : List (String × Bool)
  currentLoad : String
  capacity : Capacity
deriving DecidableEq, Repr

/-- `calculateSpecialistScore`: 70 when no specialty is required, 100
when a matching available specialist exists, else 30. -/
def calculateSpecialistScore (hospital : Hospital)
    (patientCondition : PatientCondition) : ℤ :=
  match patientCondition.requiredSpecialty with
  | none => 70
  | some required =>
    if hospital.specialists.any (fun s => s.specialty == required && s.available)
    then 100 else 30

/-- `calculateTravelScore(traffic)`: step function of
`durationInTraffic`, 50 when traffic data is missing. -/
def calculateTravelScore (traffic : Option Traffic.TravelResult) : ℤ :=
  match traffic with
  | none => 50
  | some t =>
    let duration := t.durationInTraffic
    if duration ≤ 10 then 100
    else if duration ≤ 15 then 90
    else if duration ≤ 20 then 80
    else if duration ≤ 30 then 70
    else if duration ≤ 45 then 60
    else if duration ≤ 60 then 50
    else max 20 (70 - (duration - 45))

/-- `getRequiredEquipment(condition)`: fixed condition → equipment table. -/
def getRequiredEquipment (condition : String) : List String :=
  match condition with
  | "cardiac-arrest" => ["cathLab", "bloodBank"]
  | "stroke" => ["ctScan", "mri"]
  | "trauma" => ["xray", "ctScan", "bloodBank"]
  | "accident" => ["xray", "ctScan", "bloodBank"]
  | "respiratory" => ["ventilator", "oxygenSupply"]
  | "burns" => ["bloodBank"]
  | "poisoning" => ["bloodBank"]
  | "seizure" => ["ctScan", "mri"]
  | _ => []

/-- Truthiness of `hospital.equipment?.[equip]`. -/
def hasEquipment (hospital : Hospital) (equip : String) : Bool :=
  (hospital.equipment.lookup equip).getD false

/-- `calculateEquipmentScore`: 80 when the condition requires no
equipment, else the rounded percentage of required items present. -/
def calculateEquipmentScore (hospital : Hospital)
    (patientCondition : PatientCondition) : ℤ :=
  let requiredEquipment := getRequiredEquipment patientCondition.condition
  if requiredEquipment.length = 0 then 80
  else
    let availableCount := (requiredEquipment.filter (hasEquipment hospital)).length
    jsRound ((availableCount : ℚ) / (requiredEquipment.length : ℚ) * 100)

/-- `calculateLoadScore`: low 100, moderate 75, high 50, critical 25,
default 60. -/
def calculateLoadScore (hospital : Hospital) : ℤ :=
  match hospital.currentLoad with
  | "low" => 100
  | "moderate" => 75
  | "high" => 50
  | "critical" => 25
  | _ => 60

/-- The `this.weights` object of `OptimizationService`. -/
structure Weights where
  predictedAvailability : ℚ
  specialistPresence : ℚ
  travelTime : ℚ
  equipmentMatch : ℚ
  currentLoad : ℚ
deriving DecidableEq, Repr

/-- Weights 0.30 / 0.20 / 0.25 / 0.15 / 0.10 from the constructor. -/
def weights : Weights :=
  { predictedAvailability := 30/100
    specialistPresence := 20/100
    travelTime := 25/100
    equipmentMatch := 15/100
    currentLoad := 10/100 }

/-- The weighted rounded composite computed inside
`calculateCompositeScore`. -/
def compositeOfSubscores (availability specialist travel equipment load : ℤ) : ℤ :=
  jsRound ((availability : ℚ) * weights.predictedAvailability +
           (specialist : ℚ) * weights.specialistPresence +
           (travel : ℚ) * weights.travelTime +
           (equipment : ℚ) * weights.equipmentMatch +
           (load : ℚ) * weights.currentLoad)

/-- The score record returned by `calculateCompositeScore`. -/
structure Scores where
  compositeScore : ℤ
  availabilityScore : ℤ
  specialistScore : ℤ
  travelScore : ℤ
  equipmentScore : ℤ
  loadScore : ℤ
  predictionConfidence : ℚ
deriving DecidableEq, Repr

/-- `prediction.predictions?.[0]?.confidence || 0.5` (note `||`: a stored
confidence of exactly 0 is falsy and also yields 0.5). -/
def firstConfidence (prediction : HospitalPrediction) : ℚ :=
  match prediction.predictions.head? with
  | none => 1/2
  | some p => if p.confidence = 0 then 1/2 else p.confidence

/-- `calculateCompositeScore(hospital, prediction, traffic, patientCondition)`. -/
def calculateCompositeScore (hospital : Hospital) (prediction : HospitalPrediction)
    (traffic : Option Traffic.TravelResult) (patientCondition : PatientCondition) : Scores :=
  let availabilityScore := calculateAvailabilityScore prediction patientCondition
  let specialistScore := calculateSpecialistScore hospital patientCondition
  let travelScore := calculateTravelScore traffic
  let equipmentScore := calculateEquipmentScore hospital patientCondition
  let loadScore := calculateLoadScore hospital
  { compositeScore := compositeOfSubscores availabilityScore specialistScore
      travelScore equipmentScore loadScore
    availabilityScore := availabilityScore
    specialistScore := specialistScore
    travelScore := travelScore
    equipmentScore := equipmentScore
    loadScore := loadScore
    predictionConfidence := firstConfidence prediction }

/-- One element of the `scoredHospitals` array built in Step 3 of
`optimizeHospitalSelection`. -/
structure ScoredHospital where
  hospitalId : String
  hospitalName : String
  scores : Scores
  traffic : Traffic.TravelResult
  prediction : HospitalPrediction
deriving DecidableEq, Repr

/-- The `destination` block of the secure response: only the selected
hospital's identifier. -/
structure Destination where
  hospitalId : String
deriving DecidableEq, Repr

/-- The `navigation` block of the secure response. -/
structure Navigation where
  distance : ℚ
  estimatedTime : ℤ
  trafficCondition : String
  routeCoordinates : List (ℚ × ℚ)
deriving DecidableEq, Repr

/-- The `patientInfo` block of the secure response. -/
structure PatientInfo where
  condition : String
  severity : String
  requiredSpecialty : Option String
  eta : ℤ
deriving DecidableEq, Repr

/-- The `metadata` block of the secure response (`processedAt` is the
`new Date()` call, passed in as `now`). -/
structure Metadata where
  processedAt : ℤ
  processingTimeMs : ℤ
  systemVersion : String
  algorithm : String
deriving DecidableEq, Repr

/-- The complete secure response object. -/
structure SecureResponse where
  destination : Destination
  navigation : Navigation
  patientInfo : PatientInfo
  metadata : Metadata
deriving DecidableEq, Repr

/-- `createSecureResponse(optimalHospital, patientCondition, processingTime)`:
only the selected candidate's identifier and traffic data, the patient
preparation info and fixed metadata. -/
def createSecureResponse (optimalHospital : ScoredHospital)
    (patientCondition : PatientCondition) (processingTime now : ℤ) : SecureResponse :=
  { destination := { hospitalId := optimalHospital.hospitalId }
    navigation :=
      { distance := optimalHospital.traffic.distance
        estimatedTime := optimalHospital.traffic.durationInTraffic
        trafficCondition := optimalHospital.traffic.trafficCondition
        routeCoordinates := optimalHospital.traffic.route.coordinates }
    patientInfo :=
      { condition := patientCondition.condition
        severity := patientCondition.severity
        requiredSpecialty := patientCondition.requiredSpecialty
        eta := optimalHospital.traffic.durationInTraffic }
    metadata :=
      { processedAt := now
        processingTimeMs := processingTime
        systemVersion := "2.0.0"
        algorithm := "multi-criteria-optimization" } }

/-- Step 3 of `optimizeHospitalSelection`: pair every hospital with its
prediction and traffic result and score it. -/
def scoreHospitals (hospitals : List Hospital)
    (predictions : List HospitalPrediction) (traffics : List Traffic.TravelResult)
    (patientCondition : PatientCondition) : List ScoredHospital :=
  (hospitals.zip (predictions.zip traffics)).map fun pair =>
    { hospitalId := pair.1.hospitalId
      hospitalName := pair.1.name
      scores := calculateCompositeScore pair.1 pair.2.1 (some pair.2.2) patientCondition
      traffic := pair.2.2
      prediction := pair.2.1 }

/-- Stable insertion into a list sorted by descending composite score.
`sortByCompositeDesc` sorts the tail first and then inserts the head, so
the incoming element is originally *earlier* in input order than
everything already inserted: it passes only candidates with a strictly
greater composite score and lands before the first candidate whose score
is at most its own — tied candidates therefore keep their input order
(see `sortByCompositeDesc_stable`). -/
def insertByCompositeDesc (x : ScoredHospital) : List ScoredHospital → List ScoredHospital
  | [] => [x]
  | y :: ys =>
    if x.scores.compositeScore < y.scores.compositeScore then y :: insertByCompositeDesc x ys
    else x :: y :: ys

/-- Step 4: the stable descending sort by composite score
(`scoredHospitals.sort((a, b) => b.scores.compositeScore - a.scores.compositeScore)`
with the ECMAScript-mandated stable sort).  It is proved below to be a
permutation of its input (`sortByCompositeDesc_perm`), sorted by
descending composite score (`sortByCompositeDesc_sorted`) and
tie-order-preserving (`sortByCompositeDesc_stable`) — the three
properties that uniquely characterize the stable sort. -/
def sortByCompositeDesc : List ScoredHospital → List ScoredHospital
  | [] => []
  | x :: xs => insertByCompositeDesc x (sortByCompositeDesc xs)

/-- `optimizeHospitalSelection` from Step 3 on, with the fan-out results
of the prediction and traffic collaborators supplied as inputs: score,
sort, select the head, and build the secure response (`none` models the
crash on an empty candidate list). -/
def optimizeHospitalSelection (hospitals : List Hospital)
    (predictions : List HospitalPrediction) (traffics : List Traffic.TravelResult)
    (patientCondition : PatientCondition) (processingTime now : ℤ) : Option SecureResponse :=
  match sortByCompositeDesc (scoreHospitals hospitals predictions traffics patientCondition) with
  | [] => none
  | optimalHospital :: _ =>
    some (createSecureResponse optimalHospital patientCondition processingTime now)

end Optimization

namespace GPS

/-- An inbound GPS location sample; `speed` and `heading` may be absent
(JavaScript `undefined`). -/
structure LocationSample where
  latitude : ℚ
  longitude : ℚ
  speed : Option ℚ
  heading : Option ℚ
deriving DecidableEq, Repr

/-- A stored history element: `updateLocation` stores defaulted speed and
heading, `stopTracking` spreads the final sample as-is, so the stored
fields stay optional. -/
structure LocationUpdate where
  latitude : ℚ
  longitude : ℚ
  speed : Option ℚ
  heading : Option ℚ
  timestamp : ℤ
deriving DecidableEq, Repr

/-- The recommended route attached to a tracking session; `coordinates`
may be absent, `heading` and `durationInTraffic` are optional numbers. -/
structure RecommendedRoute where
  coordinates : Option (List (ℚ × ℚ))
  heading : Option ℚ
  durationInTraffic : Option ℚ
deriving DecidableEq, Repr

/-- `normalizeAngle` from the source: `angle % 360`, plus 360 when
negative, i.e. the mathematical mod into [0, 360). -/
def normalizeAngle (angle : ℚ) : ℚ := angle - 360 * ⌊angle / 360⌋

/-- `session.recommendedRoute?.durationInTraffic || 30`: absent route,
absent duration, or a (falsy) duration of 0 all give 30 minutes. -/
def durationInTrafficOr30 (route : Option RecommendedRoute) : ℚ :=
  match route with
  | none => 30
  | some r =>
    match r.durationInTraffic with
    | none => 30
    | some d => if d = 0 then 30 else d

/-- Comparison against the JavaScript `Infinity` produced by
`calculateMinDistanceFromRoute` on an empty coordinate list: `none`
models `Infinity`, which exceeds every threshold. -/
def infGt (d : Option ℚ) (threshold : ℚ) : Bool :=
  match d with
  | none => true
  | some v => decide (v > threshold)

/-- The deviation-check result object (`distanceFromRoute = none` models
`Infinity`; `deviationAngle = none` models the `NaN` produced when the
sample carries no heading). -/
structure DeviationCheck where
  isDeviating : Bool
  distanceFromRoute : Option ℚ
  deviationAngle : Option ℚ
  delayMinutes : ℤ
  reasons : List String
deriving DecidableEq, Repr

section Service

-- `calculateDistanceMeters(lat1, lon1, lat2, lon2)` is the transcendental
-- haversine kernel (metres); the monitor model is parametrized by it.
variable (distMeters : ℚ → ℚ → ℚ → ℚ → ℚ)

/-- `calculateMinDistanceFromRoute(location, routeCoordinates)`: minimum
of the point distances to the route vertices; `none` (JavaScript
`Infinity`) on an empty vertex list. -/
def calculateMinDistanceFromRoute (location : LocationSample) :
    List (ℚ × ℚ) → Option ℚ
  | [] => none
  | c :: rest =>
    let d := distMeters location.latitude location.longitude c.1 c.2
    match calculateMinDistanceFromRoute location rest with
    | none => some d
    | some m => some (min d m)

/-- The expected-arrival object of `calculateExpectedArrival`. -/
structure ExpectedArrival where
  estimatedDistanceMeters : ℚ
  estimatedTimeMinutes : ℤ
  estimatedArrival : ℤ
deriving DecidableEq, Repr

/-- `calculateExpectedArrival(currentLocation, destination)`: straight
distance at a fixed 40 km/h. -/
def calculateExpectedArrival (currentLatitude currentLongitude : ℚ)
    (destination : Traffic.Coordinate) (now : ℤ) : ExpectedArrival :=
  let distance := distMeters currentLatitude currentLongitude
    destination.latitude destination.longitude
  let timeMinutes := jsRound (distance / 1000 / 40 * 60)
  { estimatedDistanceMeters := distance
    estimatedTimeMinutes := timeMinutes
    estimatedArrival := now + timeMinutes * 60000 }

/-- A deviation alert created by `handleDeviation`. -/
structure DeviationAlert where
  id : String
  requestId : String
  ambulanceId : String
  timestamp : ℤ
  type : String
  severity : String
  details : DeviationCheck
  currentLocation : Option LocationUpdate
  acknowledged : Bool
  acknowledgedBy : Option String
  acknowledgedAt : Option ℤ
  resolved : Bool
  resolvedAt : Option ℤ
  resolution : Option String
deriving DecidableEq, Repr

/-- One tracking session of the monitor. -/
structure TrackingSession where
  requestId : String
  ambulanceId : String
  origin : Traffic.Coordinate
  destination : Traffic.Coordinate
  recommendedRoute : Option RecommendedRoute
  startTime : ℤ
  lastUpdate : ℤ
  locationHistory : List LocationUpdate
  deviationAlerts : List DeviationAlert
  status : String
  endTime : Option ℤ
  expectedArrival : ExpectedArrival
deriving DecidableEq, Repr

/-- The route-distance block of `checkRouteDeviation`: the stored
`distanceFromRoute` (initially 0) and whether
`minDistance > thresholds.distanceMeters` (200) fired. -/
def distancePart (session : TrackingSession)
    (currentLocation : LocationSample) : Option ℚ × Bool :=
  match session.recommendedRoute with
  | none => (some 0, false)
  | some route =>
    match route.coordinates with
    | none => (some 0, false)
    | some coords =>
      let minDistance := calculateMinDistanceFromRoute distMeters currentLocation coords
      (minDistance, infGt minDistance 200)

/-- The heading block of `checkRouteDeviation`: the stored
`deviationAngle` (initially 0) and whether
`headingDiff > thresholds.angleDegrees` (45) fired; a planned heading of
0 is falsy and skips the check, a sample without heading yields `NaN`
arithmetic that never fires. -/
def anglePart (session : TrackingSession)
    (currentLocation : LocationSample) : Option ℚ × Bool :=
  match session.recommendedRoute with
  | none => (some 0, false)
  | some route =>
    match route.heading with
    | none => (some 0, false)
    | some plannedHeading =>
      if plannedHeading = 0 then (some 0, false)
      else
        match currentLocation.heading with
        | none => (none, false)
        | some sampleHeading =>
          let headingDiff := |normalizeAngle (sampleHeading - plannedHeading)|
          (some headingDiff, decide (headingDiff > 45))

/-- The schedule block of `checkRouteDeviation`: the stored
`delayMinutes` (rounded, 0 when not yet past the scheduled arrival) and
whether `delayMinutes > thresholds.timeDelayMinutes` (5) fired. -/
def delayPart (session : TrackingSession) (now : ℤ) : ℤ × Bool :=
  let scheduledArrival : ℚ :=
    (session.startTime : ℚ) + durationInTrafficOr30 session.recommendedRoute * 60 * 1000
  if (now : ℚ) > scheduledArrival then
    let delayMinutes := jsRound (((now : ℚ) - scheduledArrival) / 60000)
    (delayMinutes, decide (delayMinutes > 5))
  else (0, false)

/-- `Math.round` display of a stored quantity inside a reason string
(`none` prints as the JavaScript `Infinity`/`NaN` it models; the flagged
branches never hit the `none` case). -/
def roundedText : Option ℚ → String
  | none => "Infinity"
  | some v => toString (jsRound v)

/-- `checkRouteDeviation(session, currentLocation)`: the three threshold
checks (route distance, heading, schedule delay), each contributing its
reason string when flagged. -/
def checkRouteDeviation (session : TrackingSession)
    (currentLocation : LocationSample) (now : ℤ) : DeviationCheck :=
  let dPart := distancePart distMeters session currentLocation
  let aPart := anglePart session currentLocation
  let tPart := delayPart session now
  { isDeviating := dPart.2 || aPart.2 || tPart.2
    distanceFromRoute := dPart.1
    deviationAngle := aPart.1
    delayMinutes := tPart.1
    reasons :=
      (if dPart.2 then ["Off route by " ++ roundedText dPart.1 ++ "m"] else []) ++
      (if aPart.2 then ["Heading deviation: " ++ roundedText aPart.1 ++ "°"] else []) ++
      (if tPart.2 then [toString tPart.1 ++ " minutes behind schedule"] else []) }

/-- `calculateAlertSeverity(deviationDetails)`. -/
def calculateAlertSeverity (deviationDetails : DeviationCheck) : String :=
  if infGt deviationDetails.distanceFromRoute 500 ∨ deviationDetails.delayMinutes > 10
  then "high"
  else if infGt deviationDetails.distanceFromRoute 300 ∨ deviationDetails.delayMinutes > 5
  then "medium"
  else "low"

/-- `handleDeviation(session, deviationDetails)`: build the alert and
append it to the session's alert list. -/
def handleDeviation (session : TrackingSession)
    (deviationDetails : DeviationCheck) (now : ℤ) : TrackingSession :=
  let alert : DeviationAlert :=
    { id := "alert-" ++ toString now
      requestId := session.requestId
      ambulanceId := session.ambulanceId
      timestamp := now
      type := "ROUTE_DEVIATION"
      severity := calculateAlertSeverity deviationDetails
      details := deviationDetails
      currentLocation := session.locationHistory.getLast?
      acknowledged := false
      acknowledgedBy := none
      acknowledgedAt := none
      resolved := false
      resolvedAt := none
      resolution := none }
  { session with deviationAlerts := session.deviationAlerts ++ [alert] }

/-- The active-sessions map (`this.activeTrackedAmbulances`), as an
association list whose first matching key wins. -/
def SessionMap : Type := List (String × TrackingSession)

/-- `Map.prototype.get`. -/
def getSession (m : SessionMap) (requestId : String) : Option TrackingSession :=
  match m with
  | [] => none
  | (k, s) :: rest => if k = requestId then some s else getSession rest requestId

/-- `Map.prototype.set`. -/
def setSession (m : SessionMap) (requestId : String) (session : TrackingSession) : SessionMap :=
  (requestId, session) :: m.filter (fun p => decide (p.1 ≠ requestId))

/-- `Map.prototype.delete`. -/
def deleteSession (m : SessionMap) (requestId : String) : SessionMap :=
  m.filter (fun p => decide (p.1 ≠ requestId))

/-- `startTracking(requestId, ambulanceId, origin, destination, recommendedRoute)`. -/
def startTracking (m : SessionMap) (requestId ambulanceId : String)
    (origin destination : Traffic.Coordinate) (recommendedRoute : Option RecommendedRoute)
    (now : ℤ) : TrackingSession × SessionMap :=
  let trackingSession : TrackingSession :=
    { requestId := requestId
      ambulanceId := ambulanceId
      origin := origin
      destination := destination
      recommendedRoute := recommendedRoute
      startTime := now
      lastUpdate := now
      locationHistory := []
      deviationAlerts := []
      status := "tracking"
      endTime := none
      expectedArrival := calculateExpectedArrival distMeters
        origin.latitude origin.longitude destination now }
  (trackingSession, setSession m requestId trackingSession)

/-- The object returned by a successful `updateLocation` call. -/
structure UpdateResult where
  status : String
  deviationAlert : Bool
  deviationDetails : DeviationCheck
  expectedArrival : ExpectedArrival
deriving DecidableEq, Repr

/-- `updateLocation(requestId, location)`: `none` (the JavaScript `null`
return after the missing-session warning) when no active session exists,
otherwise append the sample to the bounded history (last 100), run
deviation detection, store any alert, and recompute expected arrival. -/
def updateLocation (m : SessionMap) (requestId : String)
    (location : LocationSample) (now : ℤ) : Option UpdateResult × SessionMap :=
  match getSession m requestId with
  | none => (none, m)
  | some session =>
    let locationUpdate : LocationUpdate :=
      { latitude := location.latitude
        longitude := location.longitude
        speed := some (location.speed.getD 0)
        heading := some (location.heading.getD 0)
        timestamp := now }
    let pushed := session.locationHistory ++ [locationUpdate]
    let bounded := if pushed.length > 100 then pushed.drop (pushed.length - 100) else pushed
    let session1 := { session with locationHistory := bounded, lastUpdate := now }
    let deviationCheck := checkRouteDeviation distMeters session1 location now
    let session2 :=
      if deviationCheck.isDeviating then handleDeviation session1 deviationCheck now
      else session1
    let expectedArrival := calculateExpectedArrival distMeters
      location.latitude location.longitude session.destination now
    let session3 := { session2 with expectedArrival := expectedArrival }
    (some { status := "tracking"
            deviationAlert := deviationCheck.isDeviating
            deviationDetails := deviationCheck
            expectedArrival := expectedArrival },
     setSession m requestId session3)

/-- The statistics object of `calculateFinalStats`; `totalDistanceKm` is
absent (`none`) in the short-history branch. -/
structure FinalStats where
  totalDistance : ℤ
  totalDistanceKm : Option ℚ
  totalTime : ℤ
  averageSpeed : ℤ
  deviationCount : ℕ
  totalDeviationTime : ℤ
deriving DecidableEq, Repr

/-- Cumulative pairwise path distance over the history. -/
def pathDistance : List LocationUpdate → ℚ
  | [] => 0
  | [_] => 0
  | a :: b :: rest =>
    distMeters a.latitude a.longitude b.latitude b.longitude + pathDistance (b :: rest)

/-- One alert's contribution to `totalDeviationTime`
(`alert.resolved ? (alert.resolvedAt - alert.timestamp) / 60000 : 0`). -/
def deviationTimeOf (alert : DeviationAlert) : ℚ :=
  if alert.resolved then ((alert.resolvedAt.getD alert.timestamp : ℚ) - (alert.timestamp : ℚ)) / 60000
  else 0

/-- `calculateFinalStats(session)`: all-zero statistics (but the true
alert count) when fewer than two samples exist, otherwise cumulative
distance, elapsed minutes, average speed and resolved-deviation time. -/
def calculateFinalStats (session : TrackingSession) : FinalStats :=
  if session.locationHistory.length < 2 then
    { totalDistance := 0
      totalDistanceKm := none
      totalTime := 0
      averageSpeed := 0
      deviationCount := session.deviationAlerts.length
      totalDeviationTime := 0 }
  else
    let totalDistance := pathDistance distMeters session.locationHistory
    let startTime := (session.locationHistory.head?.map (·.timestamp)).getD 0
    let endTime := (session.locationHistory.getLast?.map (·.timestamp)).getD 0
    let totalTimeMinutes := jsRound (((endTime : ℚ) - (startTime : ℚ)) / 60000)
    let totalTimeHours : ℚ := (totalTimeMinutes : ℚ) / 60
    let totalDistanceKm := totalDistance / 1000
    let averageSpeed := if totalTimeHours > 0 then jsRound (totalDistanceKm / totalTimeHours) else 0
    let totalDeviationTime := (session.deviationAlerts.map deviationTimeOf).sum
    { totalDistance := jsRound totalDistance
      totalDistanceKm := some ((jsRound (totalDistanceKm * 10) : ℚ) / 10)
      totalTime := totalTimeMinutes
      averageSpeed := averageSpeed
      deviationCount := session.deviationAlerts.length
      totalDeviationTime := jsRound totalDeviationTime }

/-- `stopTracking(requestId, finalLocation)`: `none` when no session
exists; otherwise append the optional final sample, mark the session
completed, compute final statistics, and remove the session from active
storage. -/
def stopTracking (m : SessionMap) (requestId : String)
    (finalLocation : Option LocationSample) (now : ℤ) :
    Option (TrackingSession × FinalStats) × SessionMap :=
  match getSession m requestId with
  | none => (none, m)
  | some session =>
    let session1 :=
      match finalLocation with
      | none => session
      | some loc =>
        let finalUpdate : LocationUpdate :=
          { latitude := loc.latitude
            longitude := loc.longitude
            speed := loc.speed
            heading := loc.heading
            timestamp := now }
        { session with locationHistory := session.locationHistory ++ [finalUpdate] }
    let session2 := { session1 with status := "completed", endTime := some now }
    let finalStats := calculateFinalStats distMeters session2
    (some (session2, finalStats), deleteSession m requestId)

end Service

end GPS

namespace Audit

/-- A chain-hash value: the fixed `'genesis'` marker or a digest. -/
inductive HashVal where
  | genesis
  | digest (value : ℕ)
deriving DecidableEq, Repr

/-- The actor block stored in an in-memory audit entry. -/
structure Actor where
  id : String
  role : String
  name : String
  hospitalId : Option String
  ambulanceId : Option String
deriving DecidableEq, Repr

/-- The object serialized by `calculateHash` of the in-memory
`AuditService`: `{id, timestamp, actionType, actor, details, previousHash}`.
The detail payload type is abstract (arbitrary JSON). -/
structure HashInput (Details : Type) where
  id : String
  timestamp : String
  actionType : String
  actor : Actor
  details : Details
  previousHash : HashVal
deriving DecidableEq, Repr

/-- One in-memory audit entry (fields that take no part in chaining or
verification — the human-readable action description, metadata block and
the raw `Date` — are elided). -/
structure Entry (Details : Type) where
  id : String
  timestampISO : String
  actionType : String
  actor : Actor
  details : Details
  previousHash : HashVal
  hash : ℕ
deriving DecidableEq, Repr

/-- The fields of an entry that feed `calculateHash`. -/
def hashInputOf {Details : Type} (e : Entry Details) : HashInput Details :=
  { id := e.id
    timestamp := e.timestampISO
    actionType := e.actionType
    actor := e.actor
    details := e.details
    previousHash := e.previousHash }

/-- The mutable state of the in-memory `AuditService`; `logCollection`
iterates in insertion order under unique ids, so the single list carries
both. -/
structure AuditState (Details : Type) where
  auditLog : List (Entry Details)
  previousHash : HashVal
deriving DecidableEq, Repr

/-- The constructor state: empty log, `previousHash = 'genesis'`. -/
def initState (Details : Type) : AuditState Details :=
  { auditLog := [], previousHash := .genesis }

section Service

-- SHA-256 and the PII redaction of `sanitizeDetails` act on arbitrary
-- JSON, so the model is parametrized by the digest function and the
-- redaction function on the abstract detail type.
variable {Details : Type} (hashFn : HashInput Details → ℕ) (sanitizeDetails : Details → Details)

/-- `calculateHash(entry)`: digest of the six hashed fields. -/
def calculateHash (e : Entry Details) : ℕ := hashFn (hashInputOf e)

/-- `createLogEntry(actionType, actor, details)`: build the entry with
the current tail hash, compute its hash, advance the tail and append
(the generated id and ISO timestamp are explicit inputs). -/
def createLogEntry (st : AuditState Details) (id timestampISO actionType : String)
    (actor : Actor) (details : Details) : Entry Details × AuditState Details :=
  let logEntry : Entry Details :=
    { id := id
      timestampISO := timestampISO
      actionType := actionType
      actor := actor
      details := sanitizeDetails details
      previousHash := st.previousHash
      hash := 0 }
  let stored := { logEntry with hash := calculateHash hashFn logEntry }
  (stored, { auditLog := st.auditLog ++ [stored], previousHash := .digest stored.hash })

/-- The loop body of `verifyIntegrity`: walk the entries, checking the
`previousHash` link and the recomputed hash, stopping at the first
failure. -/
def verifyFrom (previousHash : HashVal) : List (Entry Details) → Bool
  | [] => true
  | e :: rest =>
    if e.previousHash ≠ previousHash then false
    else if calculateHash hashFn e ≠ e.hash then false
    else verifyFrom (.digest e.hash) rest

/-- The record returned by `verifyIntegrity` (`verifiedAt` elided): only
a validity flag and the total entry count. -/
structure VerifyResult where
  isValid : Bool
  totalEntries : ℕ
deriving DecidableEq, Repr

/-- `verifyIntegrity()` of the in-memory `AuditService`. -/
def verifyIntegrity (st : AuditState Details) : VerifyResult :=
  { isValid := verifyFrom hashFn .genesis st.auditLog
    totalEntries := st.auditLog.length }

/-- The position at which the `verifyIntegrity` loop breaks (the source
logs this entry's id to the console but does not return it). -/
def firstFailingFrom (previousHash : HashVal) (index : ℕ) :
    List (Entry Details) → Option ℕ
  | [] => none
  | e :: rest =>
    if e.previousHash ≠ previousHash then some index
    else if calculateHash hashFn e ≠ e.hash then some index
    else firstFailingFrom (.digest e.hash) (index + 1) rest

/-- The inputs of one `createLogEntry` call. -/
structure AppendOp (Details : Type) where
  id : String
  timestampISO : String
  actionType : String
  actor : Actor
  details : Details

/-- Run a sequence of `createLogEntry` calls. -/
def runAppends (st : AuditState Details) : List (AppendOp Details) → AuditState Details
  | [] => st
  | op :: ops =>
    runAppends (createLogEntry hashFn sanitizeDetails st
      op.id op.timestampISO op.actionType op.actor op.details).2 ops

/-- The tail hash after walking a list of entries. -/
def tailHash (previousHash : HashVal) : List (Entry Details) → HashVal
  | [] => previousHash
  | e :: rest => tailHash (.digest e.hash) rest

end Service

end Audit

namespace AuditDb

open Audit (HashVal)

/-- The object serialized by `calculateHash` of the database-backed
`AuditService`: `{timestamp, event, user, details, previousHash}` (the
ISO timestamp string is injective in the millisecond value, which is
stored directly). -/
structure DbHashInput (Details : Type) where
  timestamp : ℤ
  event : String
  user : String
  details : Details
  previousHash : HashVal
deriving DecidableEq, Repr

/-- One persisted audit document of the database-backed service. -/
structure DbEntry (Details : Type) where
  event : String
  user : String
  request : Option String
  ambulance : Option String
  details : Details
  previousHash : HashVal
  hash : ℕ
  timestamp : ℤ
deriving DecidableEq, Repr

/-- The hashed fields of a persisted entry. -/
def dbHashInputOf {Details : Type} (e : DbEntry Details) : DbHashInput Details :=
  { timestamp := e.timestamp
    event := e.event
    user := e.user
    details := e.details
    previousHash := e.previousHash }

/-- The database-backed service state: the persisted append-only
collection (in insertion order) and the cached tail hash
(`this.lastHash`, `null` on cold start). -/
structure DbState (Details : Type) where
  entries : List (DbEntry Details)
  lastHash : Option ℕ
deriving DecidableEq, Repr

/-- A fresh service over an empty ledger. -/
def initState (Details : Type) : DbState Details :=
  { entries := [], lastHash := none }

/-- `Audit.findOne().sort(\x7b timestamp: -1 })`: a most recent entry by
timestamp (later-inserted wins ties). -/
def latestByTimestamp {Details : Type} : List (DbEntry Details) → Option (DbEntry Details)
  | [] => none
  | e :: rest =>
    match latestByTimestamp rest with
    | none => some e
    | some later => if later.timestamp ≥ e.timestamp then some later else some e

/-- `getPreviousHash()`: the cached tail hash when set, otherwise the
most recent persisted entry's hash, otherwise `'genesis'` (the source
also caches the database result; the cache is overwritten by the
following `createLogEntry` either way). -/
def getPreviousHash {Details : Type} (st : DbState Details) : HashVal :=
  match st.lastHash with
  | some h => .digest h
  | none =>
    match latestByTimestamp st.entries with
    | some lastEntry => .digest lastEntry.hash
    | none => .genesis

section Service

variable {Details : Type} (hashFn : DbHashInput Details → ℕ) (sanitizeDetails : Details → Details)

/-- `createLogEntry(actionType, actor, details)` of the database-backed
service: fetch the tail hash, build and hash the document, persist it
(`Audit.create` = append) and cache the new tail hash.  The
`details.ambulanceId || actor.ambulanceId` fallback is collapsed into
the `ambulance` input. -/
def createLogEntry (st : DbState Details) (timestamp : ℤ) (actionType : String)
    (actorId : String) (request ambulance : Option String) (details : Details) :
    DbEntry Details × DbState Details :=
  let previousHash := getPreviousHash st
  let logData : DbEntry Details :=
    { event := actionType
      user := actorId
      request := request
      ambulance := ambulance
      details := sanitizeDetails details
      previousHash := previousHash
      hash := 0
      timestamp := timestamp }
  let newEntry := { logData with hash := hashFn (dbHashInputOf logData) }
  (newEntry, { entries := st.entries ++ [newEntry], lastHash := some newEntry.hash })

/-- The inputs of one database-variant append. -/
structure DbAppendOp (Details : Type) where
  timestamp : ℤ
  actionType : String
  actorId : String
  request : Option String
  ambulance : Option String
  details : Details

/-- Run a sequence of `createLogEntry` calls on one service instance. -/
def runAppends (st : DbState Details) : List (DbAppendOp Details) → DbState Details
  | [] => st
  | op :: ops =>
    runAppends (createLogEntry hashFn sanitizeDetails st
      op.timestamp op.actionType op.actorId op.request op.ambulance op.details).2 ops

/-- The hash-chain invariant of §3: the first entry links to the genesis
marker and every later entry links to its predecessor's hash. -/
def chainFrom (previousHash : HashVal) : List (DbEntry Details) → Prop
  | [] => True
  | e :: rest => e.previousHash = previousHash ∧ chainFrom (.digest e.hash) rest

/-- The tail hash after walking a list of entries. -/
def tailHash (previousHash : HashVal) : List (DbEntry Details) → HashVal
  | [] => previousHash
  | e :: rest => tailHash (.digest e.hash) rest

end Service

end AuditDb

/-! ## Helper lemmas -/

theorem calculateResourceReadiness_bounds (available total : ℤ)
    (ha : 0 ≤ available) (ht : 0 ≤ total) :
    0 ≤ Prediction.calculateResourceReadiness available total ∧
      Prediction.calculateResourceReadiness available total ≤ 100 := by
  unfold Prediction.calculateResourceReadiness
  by_cases h : total = 0
  · simp [h]
  · have htpos : (0 : ℚ) < (total : ℚ) := by
      have : (0 : ℤ) < total := lt_of_le_of_ne ht (Ne.symm h)
      exact_mod_cast this
    have hq : (0 : ℚ) ≤ (available : ℚ) / (total : ℚ) * 100 := by positivity
    constructor
    · simp only [if_neg h]
      exact le_min (by norm_num) (jsRound_nonneg hq)
    · simp only [if_neg h]
      exact min_le_left _ _

/-! ## C9 -/

/-- C9: `calculateResourceReadiness` is total — it returns 0 when
`total = 0` instead of dividing by zero, and otherwise
`min(100, round(100 × available/total))` — and therefore every bed/ICU
readiness percentage produced by `predictHospitalReadiness` (over
non-negative predicted values and capacities) is an integer in [0,100]. -/
theorem C9_resource_readiness_total_and_bounded :
    (∀ available : ℤ, Prediction.calculateResourceReadiness available 0 = 0) ∧
    (∀ available total : ℤ, total ≠ 0 →
      Prediction.calculateResourceReadiness available total =
        min 100 (jsRound (100 * (available : ℚ) / (total : ℚ)))) ∧
    (∀ (preds : List Prediction.PredPoint) (totalBeds totalICU : ℤ),
      (∀ p ∈ preds, 0 ≤ p.predictedBeds ∧ 0 ≤ p.predictedICU) →
      0 ≤ totalBeds → 0 ≤ totalICU →
      ∀ r ∈ Prediction.predictHospitalReadinessScores preds totalBeds totalICU,
        (0 ≤ r.bedReadiness ∧ r.bedReadiness ≤ 100) ∧
        (0 ≤ r.icuReadiness ∧ r.icuReadiness ≤ 100)) := by
  refine ⟨fun available => by simp [Prediction.calculateResourceReadiness],
    fun available total h => ?_, fun preds totalBeds totalICU hp hb hi r hr => ?_⟩
  · simp only [Prediction.calculateResourceReadiness, if_neg h]
    congr 2
    ring
  · simp only [Prediction.predictHospitalReadinessScores, List.mem_map] at hr
    obtain ⟨p, hpmem, rfl⟩ := hr
    obtain ⟨hb1, hi1⟩ := hp p hpmem
    exact ⟨calculateResourceReadiness_bounds p.predictedBeds totalBeds hb1 hb,
      calculateResourceReadiness_bounds p.predictedICU totalICU hi1 hi⟩

/-- Witness for C9 at a concrete input. -/
theorem C9_resource_readiness_witness :
    (10 : ℤ) ≠ 0 ∧
    Prediction.calculateResourceReadiness 5 10 =
      min 100 (jsRound (100 * (5 : ℚ) / (10 : ℚ))) :=
  ⟨by decide, C9_resource_readiness_total_and_bounded.2.1 5 10 (by decide)⟩

/-! ## C4 -/

/-- C4 counterexample: for a non-critical patient with `predictedBeds = 1`
the source computes `round(min(100, 1 / max(10, 6) * 100)) = 10`, while
the claimed formula `round(min(100, 100 × 1/(1+5)))` gives 17 — the
source's `Math.max(10, predictedBeds + 5)` denominator floor diverges
from the claim whenever `predictedBeds < 5`. -/
theorem C4_availability_counterexample :
    Optimization.calculateAvailabilityScore ⟨[⟨1, 1, 0, 1/2⟩]⟩ ⟨"mild", "stroke", none⟩ = 10 ∧
    Optimization.claimedAvailabilityScore ⟨[⟨1, 1, 0, 1/2⟩]⟩ ⟨"mild", "stroke", none⟩ = 17 ∧
    Optimization.calculateAvailabilityScore ⟨[⟨1, 1, 0, 1/2⟩]⟩ ⟨"mild", "stroke", none⟩ ≠
      Optimization.claimedAvailabilityScore ⟨[⟨1, 1, 0, 1/2⟩]⟩ ⟨"mild", "stroke", none⟩ := by
  have hs : ¬("mild" = "critical" ∨ "mild" = "severe") := by decide
  refine ⟨?_, ?_, ?_⟩ <;>
    norm_num [Optimization.calculateAvailabilityScore,
      Optimization.claimedAvailabilityScore, jsRound, hs]

/-- C4 amended: the availability sub-score equals
`round(100 × predictedICU/(predictedICU+2))` for severe/critical patients
(whose predicted ICU is non-negative), and
`round(min(100, 100 × predictedBeds/max(10, predictedBeds+5)))` otherwise
— the bed denominator carries the source's floor of 10. -/
theorem C4_availability_amended
    (pred : Prediction.PredPoint) (rest : List Prediction.PredPoint)
    (cond : Optimization.PatientCondition) :
    ((cond.severity = "critical" ∨ cond.severity = "severe") → 0 ≤ pred.predictedICU →
      Optimization.calculateAvailabilityScore ⟨pred :: rest⟩ cond =
        jsRound (100 * (pred.predictedICU : ℚ) / ((pred.predictedICU : ℚ) + 2))) ∧
    (¬(cond.severity = "critical" ∨ cond.severity = "severe") →
      Optimization.calculateAvailabilityScore ⟨pred :: rest⟩ cond =
        jsRound (min 100 (100 * (pred.predictedBeds : ℚ) / max 10 ((pred.predictedBeds : ℚ) + 5)))) := by
  constructor
  · intro hcrit hicu
    have hicuq : (0 : ℚ) ≤ (pred.predictedICU : ℚ) := by exact_mod_cast hicu
    simp only [Optimization.calculateAvailabilityScore, List.head?, if_pos hcrit]
    have hmax : max 1 ((pred.predictedICU : ℚ) + 2) = (pred.predictedICU : ℚ) + 2 :=
      max_eq_right (by linarith)
    rw [hmax]
    congr 1
    ring
  · intro hncrit
    simp only [Optimization.calculateAvailabilityScore, List.head?, if_neg hncrit]
    congr 1
    rw [show ∀ x y : ℚ, x / y * 100 = 100 * x / y from fun x y => by ring]

/-- Witness for C4 (amended) at a concrete input. -/
theorem C4_availability_witness :
    Optimization.calculateAvailabilityScore ⟨[⟨1, 0, 3, 1/2⟩]⟩ ⟨"critical", "trauma", none⟩ =
      jsRound (100 * ((3 : ℤ) : ℚ) / (((3 : ℤ) : ℚ) + 2)) :=
  (C4_availability_amended ⟨1, 0, 3, 1/2⟩ [] ⟨"critical", "trauma", none⟩).1
    (Or.inl rfl) (by decide)

/-! ## C5 -/

/-- C5: the composite score equals
`round(0.30·availability + 0.20·specialist + 0.25·travel + 0.15·equipment + 0.10·load)`,
the weights are non-negative and sum to 1, and the composite is
monotonically non-decreasing in each sub-score holding the other four
fixed. -/
theorem C5_composite_formula_and_monotone :
    (∀ (hospital : Optimization.Hospital) (prediction : Optimization.HospitalPrediction)
       (traffic : Option Traffic.TravelResult) (cond : Optimization.PatientCondition),
      (Optimization.calculateCompositeScore hospital prediction traffic cond).compositeScore =
        jsRound ((Optimization.calculateAvailabilityScore prediction cond : ℚ) * (30/100) +
                 (Optimization.calculateSpecialistScore hospital cond : ℚ) * (20/100) +
                 (Optimization.calculateTravelScore traffic : ℚ) * (25/100) +
                 (Optimization.calculateEquipmentScore hospital cond : ℚ) * (15/100) +
                 (Optimization.calculateLoadScore hospital : ℚ) * (10/100))) ∧
    (Optimization.weights.predictedAvailability + Optimization.weights.specialistPresence +
       Optimization.weights.travelTime + Optimization.weights.equipmentMatch +
       Optimization.weights.currentLoad = 1) ∧
    (∀ a a' s t e l : ℤ, a ≤ a' →
      Optimization.compositeOfSubscores a s t e l ≤ Optimization.compositeOfSubscores a' s t e l) ∧
    (∀ a s s' t e l : ℤ, s ≤ s' →
      Optimization.compositeOfSubscores a s t e l ≤ Optimization.compositeOfSubscores a s' t e l) ∧
    (∀ a s t t' e l : ℤ, t ≤ t' →
      Optimization.compositeOfSubscores a s t e l ≤ Optimization.compositeOfSubscores a s t' e l) ∧
    (∀ a s t e e' l : ℤ, e ≤ e' →
      Optimization.compositeOfSubscores a s t e l ≤ Optimization.compositeOfSubscores a s t e' l) ∧
    (∀ a s t e l l' : ℤ, l ≤ l' →
      Optimization.compositeOfSubscores a s t e l ≤ Optimization.compositeOfSubscores a s t e l') := by
  refine ⟨fun hospital prediction traffic cond => rfl, by norm_num [Optimization.weights],
    ?_, ?_, ?_, ?_, ?_⟩ <;>
  · intro a b c d e f h
    simp only [Optimization.compositeOfSubscores, Optimization.weights]
    apply jsRound_monotone
    have hq : ∀ x y : ℤ, x ≤ y → (x : ℚ) ≤ (y : ℚ) := fun x y hxy => by exact_mod_cast hxy
    have := hq _ _ h
    linarith

/-- Witness for C5 at a concrete input. -/
theorem C5_composite_witness :
    (50 : ℤ) ≤ 60 ∧
    Optimization.compositeOfSubscores 50 70 100 80 90 ≤
      Optimization.compositeOfSubscores 60 70 100 80 90 :=
  ⟨by decide, C5_composite_formula_and_monotone.2.2.1 50 60 70 100 80 90 (by decide)⟩

/-! ## C7 -/

/-- C7: for a trip id with no active tracking session, `updateLocation`
returns the distinct missing-session signal (`none`, the source's `null`
return — the only `null` this operation can produce, so callers can
distinguish it from any successful result) and leaves the tracking state
unchanged; conversely the signal occurs only when the session is
missing. -/
theorem C7_updateLocation_session_not_found
    (distMeters : ℚ → ℚ → ℚ → ℚ → ℚ) (m : GPS.SessionMap) (requestId : String)
    (location : GPS.LocationSample) (now : ℤ) :
    (GPS.getSession m requestId = none →
      GPS.updateLocation distMeters m requestId location now = (none, m)) ∧
    ((GPS.updateLocation distMeters m requestId location now).1 = none ↔
      GPS.getSession m requestId = none) := by
  constructor
  · intro h
    simp [GPS.updateLocation, h]
  · cases h : GPS.getSession m requestId <;> simp [GPS.updateLocation, h]

/-- Witness for C7 at a concrete input: empty session map. -/
theorem C7_updateLocation_witness :
    GPS.updateLocation (fun _ _ _ _ => 0) [] "trip-1" ⟨0, 0, none, none⟩ 0 = (none, []) :=
  (C7_updateLocation_session_not_found (fun _ _ _ _ => 0) [] "trip-1" ⟨0, 0, none, none⟩ 0).1 rfl

/-! ## C10 -/

/-- C10: stopping a trip whose location history (after the optional final
sample) still holds fewer than two samples yields final statistics
`totalDistance = 0`, `totalTime = 0`, `averageSpeed = 0`,
`totalDeviationTime = 0`, while `deviationCount` still equals the number
of deviation alerts raised on the trip; the session is removed from
active storage. -/
theorem C10_stop_short_history_stats
    (distMeters : ℚ → ℚ → ℚ → ℚ → ℚ) (m : GPS.SessionMap) (requestId : String)
    (finalLocation : Option GPS.LocationSample) (now : ℤ)
    (session : GPS.TrackingSession)
    (hs : GPS.getSession m requestId = some session)
    (hshort : session.locationHistory.length +
      (match finalLocation with | none => 0 | some _ => 1) < 2) :
    ((GPS.stopTracking distMeters m requestId finalLocation now).1.map Prod.snd) =
      some { totalDistance := 0
             totalDistanceKm := none
             totalTime := 0
             averageSpeed := 0
             deviationCount := session.deviationAlerts.length
             totalDeviationTime := 0 } ∧
    (GPS.stopTracking distMeters m requestId finalLocation now).2 =
      GPS.deleteSession m requestId := by
  cases finalLocation with
  | none =>
    simp only [GPS.stopTracking, hs]
    constructor
    · simp [GPS.calculateFinalStats, if_pos (by simpa using hshort)]
    · trivial
  | some loc =>
    simp only [GPS.stopTracking, hs]
    constructor
    · have hlen : session.locationHistory.length + 1 < 2 := by simpa using hshort
      simp [GPS.calculateFinalStats, if_pos (by simpa using hlen)]
    · trivial

/-- A deviation alert fixture for the C10 witness. -/
def alertC10 : GPS.DeviationAlert :=
  { id := "alert-1"
    requestId := "trip-1"
    ambulanceId := "amb-1"
    timestamp := 0
    type := "ROUTE_DEVIATION"
    severity := "low"
    details :=
      { isDeviating := true
        distanceFromRoute := some 0
        deviationAngle := some 0
        delayMinutes := 0
        reasons := [] }
    currentLocation := none
    acknowledged := false
    acknowledgedBy := none
    acknowledgedAt := none
    resolved := false
    resolvedAt := none
    resolution := none }

/-- A tracking session fixture for the C10 witness: empty history, one
raised deviation alert. -/
def sessionC10 : GPS.TrackingSession :=
  { requestId := "trip-1"
    ambulanceId := "amb-1"
    origin := ⟨0, 0⟩
    destination := ⟨1, 1⟩
    recommendedRoute := none
    startTime := 0
    lastUpdate := 0
    locationHistory := []
    deviationAlerts := [alertC10]
    status := "tracking"
    endTime := none
    expectedArrival :=
      { estimatedDistanceMeters := 0
        estimatedTimeMinutes := 0
        estimatedArrival := 0 } }

/-- Witness for C10 at a concrete input. -/
theorem C10_stop_short_history_witness :
    ((GPS.stopTracking (fun _ _ _ _ => 0) [("trip-1", sessionC10)]
        "trip-1" none 42).1.map Prod.snd) =
      some { totalDistance := 0
             totalDistanceKm := none
             totalTime := 0
             averageSpeed := 0
             deviationCount := 1
             totalDeviationTime := 0 } := by
  exact (C10_stop_short_history_stats (fun _ _ _ _ => 0) [("trip-1", sessionC10)]
    "trip-1" none 42 sessionC10 (by rfl) (by decide)).1

/-! ## C6 -/

/-- C6 amended: a location update is deviating exactly when one of the
three guards fires; the route-distance guard fires iff the minimum
vertex distance strictly exceeds 200 m (a sample at exactly 200 m does
not fire), the heading guard fires iff the computed deviation angle
strictly exceeds 45°, and the schedule guard fires iff the rounded delay
exceeds 5 minutes, which is equivalent to a real delay of at least 5.5
minutes (330 000 ms) — not to a real delay strictly above 5 minutes. -/
theorem C6_deviation_thresholds_amended
    (distMeters : ℚ → ℚ → ℚ → ℚ → ℚ) (session : GPS.TrackingSession)
    (currentLocation : GPS.LocationSample) (now : ℤ) :
    ((GPS.checkRouteDeviation distMeters session currentLocation now).isDeviating =
      ((GPS.distancePart distMeters session currentLocation).2 ||
       (GPS.anglePart session currentLocation).2 ||
       (GPS.delayPart session now).2)) ∧
    (∀ (route : GPS.RecommendedRoute) (coords : List (ℚ × ℚ)) (d : ℚ),
      session.recommendedRoute = some route →
      route.coordinates = some coords →
      GPS.calculateMinDistanceFromRoute distMeters currentLocation coords = some d →
      ((GPS.distancePart distMeters session currentLocation).2 = true ↔ d > 200)) ∧
    (∀ (route : GPS.RecommendedRoute) (plannedHeading sampleHeading : ℚ),
      session.recommendedRoute = some route →
      route.heading = some plannedHeading → plannedHeading ≠ 0 →
      currentLocation.heading = some sampleHeading →
      ((GPS.anglePart session currentLocation).2 = true ↔
        |GPS.normalizeAngle (sampleHeading - plannedHeading)| > 45)) ∧
    ((GPS.delayPart session now).2 = true ↔
      (now : ℚ) - ((session.startTime : ℚ) +
        GPS.durationInTrafficOr30 session.recommendedRoute * 60 * 1000) ≥ 330000) := by
  refine ⟨rfl, ?_, ?_, ?_⟩
  · intro route coords d hroute hcoords hmin
    simp only [GPS.distancePart, hroute, hcoords, hmin, GPS.infGt]
    exact decide_eq_true_iff
  · intro route plannedHeading sampleHeading hroute hheading hnz hsample
    simp only [GPS.anglePart, hroute, hheading, hsample, if_neg hnz]
    exact decide_eq_true_iff
  · simp only [GPS.delayPart]
    set s : ℚ := (session.startTime : ℚ) +
      GPS.durationInTrafficOr30 session.recommendedRoute * 60 * 1000 with hs
    by_cases h : (now : ℚ) > s
    · simp only [if_pos h, decide_eq_true_iff]
      constructor
      · intro h5
        have h6 : (6 : ℤ) ≤ jsRound (((now : ℚ) - s) / 60000) := by omega
        have := Int.le_floor.mp (by simpa [jsRound] using h6)
        push_cast at this
        linarith
      · intro hge
        have : (6 : ℚ) ≤ ((now : ℚ) - s) / 60000 + 1/2 := by linarith
        have h6 : (6 : ℤ) ≤ jsRound (((now : ℚ) - s) / 60000) := by
          rw [jsRound]
          exact Int.le_floor.mpr (by exact_mod_cast this)
        omega
    · simp only [if_neg h]
      push_neg at h
      constructor
      · intro hfalse
        exact absurd hfalse (by simp)
      · intro hge
        linarith

/-- The tracking session of the C6 counterexample: a 30-minute planned
duration, started at time 0, with no route coordinates or heading. -/
def sessionC6 : GPS.TrackingSession :=
  { requestId := "trip-6"
    ambulanceId := "amb-6"
    origin := ⟨0, 0⟩
    destination := ⟨1, 1⟩
    recommendedRoute := some { coordinates := none, heading := none, durationInTraffic := some 30 }
    startTime := 0
    lastUpdate := 0
    locationHistory := []
    deviationAlerts := []
    status := "tracking"
    endTime := none
    expectedArrival :=
      { estimatedDistanceMeters := 0
        estimatedTimeMinutes := 0
        estimatedArrival := 0 } }

/-- The location sample of the C6 counterexample. -/
def locC6 : GPS.LocationSample := ⟨0, 0, none, none⟩

/-- C6 counterexample: at `now = 2 112 000 ms` the trip is 312 000 ms =
5.2 minutes behind its 30-minute schedule — strictly more than 5 minutes
— yet `checkRouteDeviation` does not flag, because it first rounds the
delay to 5 whole minutes and `5 > 5` fails; the claim's strict
greater-than reading of the 5-minute threshold is therefore false. -/
theorem C6_delay_counterexample :
    ((2112000 : ℚ) - ((sessionC6.startTime : ℚ) +
        GPS.durationInTrafficOr30 sessionC6.recommendedRoute * 60 * 1000) > 5 * 60 * 1000) ∧
    (GPS.checkRouteDeviation (fun _ _ _ _ => 0) sessionC6 locC6 2112000).isDeviating = false ∧
    (GPS.checkRouteDeviation (fun _ _ _ _ => 0) sessionC6 locC6 2112000).delayMinutes = 5 := by
  refine ⟨?_, ?_, ?_⟩ <;>
    norm_num [GPS.checkRouteDeviation, GPS.distancePart, GPS.anglePart, GPS.delayPart,
      GPS.durationInTrafficOr30, GPS.infGt, sessionC6, locC6, jsRound]

/-- The tracking session of the C6 witness. -/
def sessionC6w : GPS.TrackingSession :=
  { requestId := "trip-6w"
    ambulanceId := "amb-6w"
    origin := ⟨0, 0⟩
    destination := ⟨1, 1⟩
    recommendedRoute := some { coordinates := some [(0, 0)], heading := none, durationInTraffic := some 30 }
    startTime := 0
    lastUpdate := 0
    locationHistory := []
    deviationAlerts := []
    status := "tracking"
    endTime := none
    expectedArrival :=
      { estimatedDistanceMeters := 0
        estimatedTimeMinutes := 0
        estimatedArrival := 0 } }

/-- Witness for C6 (amended) at a concrete input: a one-vertex route at
250 m distance fires the route-distance guard. -/
theorem C6_deviation_witness :
    ((GPS.distancePart (fun _ _ _ _ => 250) sessionC6w ⟨0, 0, none, none⟩).2 = true ↔
      (250 : ℚ) > 200) :=
  (C6_deviation_thresholds_amended (fun _ _ _ _ => 250) sessionC6w ⟨0, 0, none, none⟩ 0).2.1
    { coordinates := some [(0, 0)], heading := none, durationInTraffic := some 30 }
    [(0, 0)] 250 rfl rfl rfl

/-! ## C8 -/

/-- C8 amended: `getTravelTime` looks the cache up under the exact
(unrounded) coordinate quadruple; a hit younger than the 5-minute TTL
returns the cached estimate unchanged, and in every other case (stale
hit or miss) the returned value is the freshly computed estimate, which
overwrites the cache entry — so no entry is ever served at or beyond its
TTL. -/
theorem C8_cache_ttl_amended
    (dist : Traffic.Coordinate → Traffic.Coordinate → ℚ)
    (headingFn : Traffic.Coordinate → Traffic.Coordinate → ℤ)
    (hour : ℕ) (st : Traffic.TrafficState) (origin destination : Traffic.Coordinate)
    (vehicleType : String) (now : ℤ) :
    (∀ cached : Traffic.CacheEntry,
      Traffic.findEntry (Traffic.cacheKey origin destination) st.trafficCache = some cached →
      (now - cached.timestamp < Traffic.cacheExpiry →
        Traffic.getTravelTime dist headingFn hour st origin destination vehicleType now =
          (cached.data, st)) ∧
      (¬ now - cached.timestamp < Traffic.cacheExpiry →
        Traffic.getTravelTime dist headingFn hour st origin destination vehicleType now =
          (Traffic.computeTravelResult dist headingFn hour origin destination vehicleType now,
           { trafficCache := Traffic.setEntry (Traffic.cacheKey origin destination)
               { data := Traffic.computeTravelResult dist headingFn hour origin destination vehicleType now
                 timestamp := now } st.trafficCache }))) ∧
    (Traffic.findEntry (Traffic.cacheKey origin destination) st.trafficCache = none →
      Traffic.getTravelTime dist headingFn hour st origin destination vehicleType now =
        (Traffic.computeTravelResult dist headingFn hour origin destination vehicleType now,
         { trafficCache := Traffic.setEntry (Traffic.cacheKey origin destination)
             { data := Traffic.computeTravelResult dist headingFn hour origin destination vehicleType now
               timestamp := now } st.trafficCache })) := by
  constructor
  · intro cached hfound
    constructor
    · intro hyoung
      simp [Traffic.getTravelTime, hfound, if_pos hyoung]
    · intro hstale
      simp [Traffic.getTravelTime, hfound, if_neg hstale]
  · intro hmiss
    simp [Traffic.getTravelTime, hmiss]

/-- C8 counterexample: origins (1.4, 0) and (1, 0) round to the same
coordinate pair, but their cache keys differ, and a lookup for (1.4, 0)
misses a fresh entry cached for (1, 0) — the freshly computed result
(`updatedAt = 1000`) is returned instead of the cached one
(`updatedAt = 0`), so the cache is keyed by the exact coordinates, not
the rounded ones. -/
theorem C8_cache_key_counterexample :
    jsRound (7/5 : ℚ) = jsRound (1 : ℚ) ∧
    Traffic.cacheKey ⟨7/5, 0⟩ ⟨0, 0⟩ ≠ Traffic.cacheKey ⟨1, 0⟩ ⟨0, 0⟩ ∧
    (Traffic.getTravelTime (fun _ _ => 0) (fun _ _ => 0) 12
        (Traffic.getTravelTime (fun _ _ => 0) (fun _ _ => 0) 12 ⟨[]⟩ ⟨1, 0⟩ ⟨0, 0⟩ "ambulance" 0).2
        ⟨7/5, 0⟩ ⟨0, 0⟩ "ambulance" 1000).1.updatedAt = 1000 ∧
    (Traffic.getTravelTime (fun _ _ => 0) (fun _ _ => 0) 12 ⟨[]⟩ ⟨1, 0⟩ ⟨0, 0⟩
        "ambulance" 0).1.updatedAt = 0 := by
  refine ⟨by norm_num [jsRound], ?_, ?_, ?_⟩
  · intro h
    have := congrArg Traffic.CacheKey.originLatitude h
    norm_num [Traffic.cacheKey] at this
  · norm_num [Traffic.getTravelTime, Traffic.findEntry, Traffic.setEntry,
      Traffic.computeTravelResult, Traffic.cacheKey, Traffic.cacheExpiry]
  · norm_num [Traffic.getTravelTime, Traffic.findEntry, Traffic.setEntry,
      Traffic.computeTravelResult, Traffic.cacheKey, Traffic.cacheExpiry]

/-- A cached travel estimate fixture for the C8 witness. -/
def cachedC8 : Traffic.CacheEntry :=
  { data :=
      { distance := 5
        duration := 8
        durationInTraffic := 7
        trafficCondition := "light"
        speedAverage := 55
        route := { kind := "fastest", instructions := [], coordinates := [] }
        updatedAt := 0 }
    timestamp := 0 }

/-- Witness for C8 (amended) at a concrete input: a fresh hit returns
the cached data and leaves the cache unchanged. -/
theorem C8_cache_ttl_witness :
    Traffic.getTravelTime (fun _ _ => 0) (fun _ _ => 0) 12
        ⟨[(Traffic.cacheKey ⟨1, 0⟩ ⟨0, 0⟩, cachedC8)]⟩ ⟨1, 0⟩ ⟨0, 0⟩ "ambulance" 1000 =
      (cachedC8.data, ⟨[(Traffic.cacheKey ⟨1, 0⟩ ⟨0, 0⟩, cachedC8)]⟩) :=
  ((C8_cache_ttl_amended (fun _ _ => 0) (fun _ _ => 0) 12
      ⟨[(Traffic.cacheKey ⟨1, 0⟩ ⟨0, 0⟩, cachedC8)]⟩ ⟨1, 0⟩ ⟨0, 0⟩ "ambulance" 1000).1
    cachedC8 rfl).1 (by decide)

/-! ## Stable-sort lemmas: `sortByCompositeDesc` is the stable
descending sort (permutation + sortedness + tie-order preservation). -/

theorem insertByCompositeDesc_perm (x : Optimization.ScoredHospital)
    (l : List Optimization.ScoredHospital) :
    List.Perm (Optimization.insertByCompositeDesc x l) (x :: l) := by
  induction l with
  | nil => exact List.Perm.refl _
  | cons y ys ih =>
    by_cases h : x.scores.compositeScore < y.scores.compositeScore
    · simp only [Optimization.insertByCompositeDesc, if_pos h]
      exact (ih.cons y).trans (List.Perm.swap x y ys)
    · simp only [Optimization.insertByCompositeDesc, if_neg h]
      exact List.Perm.refl _

theorem sortByCompositeDesc_perm (l : List Optimization.ScoredHospital) :
    List.Perm (Optimization.sortByCompositeDesc l) l := by
  induction l with
  | nil => exact List.Perm.refl _
  | cons x xs ih => exact (insertByCompositeDesc_perm x _).trans (ih.cons x)

theorem insertByCompositeDesc_sorted (x : Optimization.ScoredHospital)
    (l : List Optimization.ScoredHospital)
    (hl : List.Sorted (fun a b : Optimization.ScoredHospital =>
      b.scores.compositeScore ≤ a.scores.compositeScore) l) :
    List.Sorted (fun a b : Optimization.ScoredHospital =>
      b.scores.compositeScore ≤ a.scores.compositeScore)
      (Optimization.insertByCompositeDesc x l) := by
  induction l with
  | nil => simp [Optimization.insertByCompositeDesc]
  | cons y ys ih =>
    rw [List.sorted_cons] at hl
    obtain ⟨hy, hys⟩ := hl
    by_cases h : x.scores.compositeScore < y.scores.compositeScore
    · simp only [Optimization.insertByCompositeDesc, if_pos h]
      rw [List.sorted_cons]
      constructor
      · intro b hb
        rcases List.mem_cons.mp ((insertByCompositeDesc_perm x ys).mem_iff.mp hb) with rfl | hbys
        · exact le_of_lt h
        · exact hy b hbys
      · exact ih hys
    · simp only [Optimization.insertByCompositeDesc, if_neg h]
      push_neg at h
      rw [List.sorted_cons, List.sorted_cons]
      refine ⟨?_, hy, hys⟩
      intro b hb
      rcases List.mem_cons.mp hb with rfl | hbys
      · exact h
      · exact le_trans (hy b hbys) h

theorem sortByCompositeDesc_sorted (l : List Optimization.ScoredHospital) :
    List.Sorted (fun a b : Optimization.ScoredHospital =>
      b.scores.compositeScore ≤ a.scores.compositeScore)
      (Optimization.sortByCompositeDesc l) := by
  induction l with
  | nil => simp [Optimization.sortByCompositeDesc]
  | cons x xs ih => exact insertByCompositeDesc_sorted x _ ih

theorem insertByCompositeDesc_filter (x : Optimization.ScoredHospital)
    (l : List Optimization.ScoredHospital) (k : ℤ) :
    (Optimization.insertByCompositeDesc x l).filter
        (fun c => decide (c.scores.compositeScore = k)) =
      if x.scores.compositeScore = k then
        x :: l.filter (fun c => decide (c.scores.compositeScore = k))
      else l.filter (fun c => decide (c.scores.compositeScore = k)) := by
  induction l with
  | nil =>
    by_cases hx : x.scores.compositeScore = k <;>
      simp [Optimization.insertByCompositeDesc, hx]
  | cons y ys ih =>
    by_cases h : x.scores.compositeScore < y.scores.compositeScore
    · simp only [Optimization.insertByCompositeDesc, if_pos h]
      by_cases hx : x.scores.compositeScore = k
      · have hy : ¬(y.scores.compositeScore = k) := by
          intro hyk
          rw [hx] at h
          rw [hyk] at h
          exact lt_irrefl k h
        simp [List.filter_cons, hy, hx, ih]
      · simp [List.filter_cons, hx, ih]
    · simp only [Optimization.insertByCompositeDesc, if_neg h]
      by_cases hx : x.scores.compositeScore = k <;>
        simp [List.filter_cons, hx]

theorem sortByCompositeDesc_stable (l : List Optimization.ScoredHospital) (k : ℤ) :
    (Optimization.sortByCompositeDesc l).filter
        (fun c => decide (c.scores.compositeScore = k)) =
      l.filter (fun c => decide (c.scores.compositeScore = k)) := by
  induction l with
  | nil => rfl
  | cons x xs ih =>
    show (Optimization.insertByCompositeDesc x
      (Optimization.sortByCompositeDesc xs)).filter _ = _
    rw [insertByCompositeDesc_filter]
    by_cases hx : x.scores.compositeScore = k
    · simp [List.filter_cons, hx, ih]
    · simp [List.filter_cons, hx, ih]

/-! ## C1 -/

/-- C1: the optimizer's secure response is exactly
`createSecureResponse` applied to the single selected (top-ranked)
candidate, and `createSecureResponse` is invariant under changing
anything about that candidate except its identifier and traffic block —
in particular no hospital name, address, rank, sub-score or composite
score (of the selected or of any non-selected candidate) flows into any
field of the response. -/
theorem C1_secure_response_only_selected
    (hospitals : List Optimization.Hospital)
    (predictions : List Optimization.HospitalPrediction)
    (traffics : List Traffic.TravelResult)
    (cond : Optimization.PatientCondition) (processingTime now : ℤ)
    (sel : Optimization.ScoredHospital) (rest : List Optimization.ScoredHospital)
    (hsort : Optimization.sortByCompositeDesc
      (Optimization.scoreHospitals hospitals predictions traffics cond) = sel :: rest) :
    Optimization.optimizeHospitalSelection hospitals predictions traffics cond processingTime now =
      some (Optimization.createSecureResponse sel cond processingTime now) ∧
    ∀ c₁ c₂ : Optimization.ScoredHospital,
      c₁.hospitalId = c₂.hospitalId → c₁.traffic = c₂.traffic →
      Optimization.createSecureResponse c₁ cond processingTime now =
        Optimization.createSecureResponse c₂ cond processingTime now := by
  constructor
  · simp [Optimization.optimizeHospitalSelection, hsort]
  · intro c₁ c₂ h1 h2
    simp [Optimization.createSecureResponse, h1, h2]

/-- A candidate hospital fixture for the C1 witness. -/
def hospitalC1 : Optimization.Hospital :=
  { hospitalId := "h1"
    name := "General Hospital"
    location := ⟨0, 0⟩
    address := "1 Main St"
    specialists := []
    equipment := []
    currentLoad := "low"
    capacity := { totalBeds := 100, availableBeds := 10, totalICU := 10, availableICU := 2 } }

/-- A traffic estimate fixture for the C1 witness. -/
def trafficC1 : Traffic.TravelResult :=
  { distance := 5
    duration := 8
    durationInTraffic := 10
    trafficCondition := "light"
    speedAverage := 46
    route := { kind := "fastest", instructions := [], coordinates := [(0, 0), (1, 1)] }
    updatedAt := 0 }

/-- The patient condition fixture for the C1 witness. -/
def condC1 : Optimization.PatientCondition := ⟨"moderate", "burns", none⟩

/-- The scored candidate that the C1 witness selects. -/
def selC1 : Optimization.ScoredHospital :=
  { hospitalId := "h1"
    hospitalName := "General Hospital"
    scores := Optimization.calculateCompositeScore hospitalC1 ⟨[]⟩ (some trafficC1) condC1
    traffic := trafficC1
    prediction := ⟨[]⟩ }

/-- Witness for C1 at a concrete input. -/
theorem C1_secure_response_witness :
    Optimization.optimizeHospitalSelection [hospitalC1] [⟨[]⟩] [trafficC1] condC1 3 99 =
      some (Optimization.createSecureResponse selC1 condC1 3 99) :=
  (C1_secure_response_only_selected [hospitalC1] [⟨[]⟩] [trafficC1] condC1 3 99
    selC1 [] rfl).1

/-! ## Audit-chain lemmas -/

namespace Audit

section Lemmas

variable {Details : Type} (hashFn : HashInput Details → ℕ) (sanitizeDetails : Details → Details)

theorem tailHash_append (p : HashVal) (log : List (Entry Details)) (e : Entry Details) :
    tailHash p (log ++ [e]) = .digest e.hash := by
  induction log generalizing p with
  | nil => rfl
  | cons x xs ih =>
    simp only [List.cons_append, tailHash]
    exact ih _

theorem verifyFrom_cons (x : Entry Details) (xs : List (Entry Details)) (p : HashVal)
    (h : verifyFrom hashFn p (x :: xs) = true) :
    x.previousHash = p ∧ calculateHash hashFn x = x.hash ∧
      verifyFrom hashFn (.digest x.hash) xs = true := by
  rcases eq_or_ne x.previousHash p with h1 | h1
  · rcases eq_or_ne (calculateHash hashFn x) x.hash with h2 | h2
    · refine ⟨h1, h2, ?_⟩
      simpa [verifyFrom, h1, h2] using h
    · exact absurd h (by simp [verifyFrom, h1, h2])
  · exact absurd h (by simp [verifyFrom, h1])

theorem verifyFrom_append (p : HashVal) (log : List (Entry Details)) (e : Entry Details)
    (hlog : verifyFrom hashFn p log = true)
    (hlink : e.previousHash = tailHash p log)
    (hhash : calculateHash hashFn e = e.hash) :
    verifyFrom hashFn p (log ++ [e]) = true := by
  induction log generalizing p with
  | nil =>
    simp only [tailHash] at hlink
    simp [verifyFrom, hlink, hhash]
  | cons x xs ih =>
    obtain ⟨h1, h2, h3⟩ := verifyFrom_cons hashFn x xs p hlog
    simp only [List.cons_append, verifyFrom, h1, h2]
    simp only [tailHash] at hlink
    simpa [verifyFrom, h1, h2] using ih _ h3 hlink

theorem runAppends_spec (st : AuditState Details) (ops : List (AppendOp Details))
    (hval : verifyFrom hashFn .genesis st.auditLog = true)
    (htail : tailHash .genesis st.auditLog = st.previousHash) :
    verifyFrom hashFn .genesis (runAppends hashFn sanitizeDetails st ops).auditLog = true ∧
    tailHash .genesis (runAppends hashFn sanitizeDetails st ops).auditLog =
      (runAppends hashFn sanitizeDetails st ops).previousHash ∧
    (runAppends hashFn sanitizeDetails st ops).auditLog.length =
      st.auditLog.length + ops.length := by
  induction ops generalizing st with
  | nil => simpa [runAppends] using ⟨hval, htail⟩
  | cons op ops ih =>
    simp only [runAppends]
    have hval2 : verifyFrom hashFn .genesis
        ((createLogEntry hashFn sanitizeDetails st
          op.id op.timestampISO op.actionType op.actor op.details).2).auditLog = true := by
      refine verifyFrom_append hashFn .genesis st.auditLog _ hval ?_ rfl
      exact htail.symm
    have htail2 : tailHash .genesis
        ((createLogEntry hashFn sanitizeDetails st
          op.id op.timestampISO op.actionType op.actor op.details).2).auditLog =
        ((createLogEntry hashFn sanitizeDetails st
          op.id op.timestampISO op.actionType op.actor op.details).2).previousHash := by
      exact tailHash_append .genesis st.auditLog _
    obtain ⟨hv, ht, hl⟩ := ih _ hval2 htail2
    refine ⟨hv, ht, ?_⟩
    have hstep : ((createLogEntry hashFn sanitizeDetails st
        op.id op.timestampISO op.actionType op.actor op.details).2).auditLog.length =
        st.auditLog.length + 1 := by
      simp [createLogEntry]
    rw [hl, hstep, List.length_cons]
    omega

theorem verifyFrom_set_tampered (log : List (Entry Details)) :
    ∀ (p : HashVal) (idx i : ℕ) (e : Entry Details) (d' : Details),
    verifyFrom hashFn p log = true →
    log.get? i = some e →
    hashFn (hashInputOf { e with details := d' }) ≠ e.hash →
    verifyFrom hashFn p (log.set i { e with details := d' }) = false ∧
    firstFailingFrom hashFn p idx (log.set i { e with details := d' }) = some (idx + i) := by
  induction log with
  | nil =>
    intro p idx i e d' _ hget _
    simp at hget
  | cons x xs ih =>
    intro p idx i e d' hval hget hne
    obtain ⟨h1, h2, h3⟩ := verifyFrom_cons hashFn x xs p hval
    subst h1
    match i with
    | 0 =>
      have hex : x = e := by simpa using hget
      subst hex
      have hbad : calculateHash hashFn { x with details := d' } ≠
          ({ x with details := d' } : Entry Details).hash := by
        simpa [calculateHash] using hne
      constructor
      · simp [List.set, verifyFrom, hbad]
      · simp [List.set, firstFailingFrom, hbad]
    | Nat.succ j =>
      have hget2 : xs.get? j = some e := by simpa using hget
      obtain ⟨hfail, hidx⟩ := ih (.digest x.hash) (idx + 1) j e d' h3 hget2 hne
      constructor
      · simp [List.set, verifyFrom, h2, hfail]
      · have hplus : idx + 1 + j = idx + (j + 1) := by omega
        simp [List.set, firstFailingFrom, h2, hidx, hplus]

end Lemmas

end Audit

/-! ## C2 -/

/-- C2 amended: `verifyIntegrity` on an untouched chain of N sequential
appends returns `isValid = true` with total count N; mutating one stored
entry's detail payload (so that its recomputed digest no longer matches
the stored hash) makes it return `isValid = false` with the count
unchanged, the internal walk stopping exactly at the mutated entry's
index — but the returned record carries only the validity flag and the
count, not that index (the source only logs it to the console). -/
theorem C2_verify_integrity_amended (Details : Type)
    (hashFn : Audit.HashInput Details → ℕ) (sanitizeDetails : Details → Details) :
    (∀ ops : List (Audit.AppendOp Details),
      Audit.verifyIntegrity hashFn
        (Audit.runAppends hashFn sanitizeDetails (Audit.initState Details) ops) =
        { isValid := true, totalEntries := ops.length }) ∧
    (∀ (log : List (Audit.Entry Details)) (previousHashCache : Audit.HashVal)
       (i : ℕ) (e : Audit.Entry Details) (d' : Details),
      Audit.verifyFrom hashFn .genesis log = true →
      log.get? i = some e →
      hashFn (Audit.hashInputOf { e with details := d' }) ≠ e.hash →
      Audit.verifyIntegrity hashFn
          { auditLog := log.set i { e with details := d' },
            previousHash := previousHashCache } =
        { isValid := false, totalEntries := log.length } ∧
      Audit.firstFailingFrom hashFn .genesis 0 (log.set i { e with details := d' }) =
        some i) := by
  constructor
  · intro ops
    obtain ⟨hv, _, hl⟩ := Audit.runAppends_spec hashFn sanitizeDetails
      (Audit.initState Details) ops rfl rfl
    have hlen : (Audit.runAppends hashFn sanitizeDetails
        (Audit.initState Details) ops).auditLog.length = ops.length := by
      simpa [Audit.initState] using hl
    simp [Audit.verifyIntegrity, hv, hlen]
  · intro log previousHashCache i e d' hval hget hne
    obtain ⟨hfail, hidx⟩ := Audit.verifyFrom_set_tampered hashFn log .genesis 0 i e d'
      hval hget hne
    refine ⟨?_, by simpa using hidx⟩
    simp only [Audit.verifyIntegrity, hfail, List.length_set]

/-- The digest function of the C2 fixtures: the detail payload itself
(injective on the payloads used). -/
def hashC2 : Audit.HashInput ℕ → ℕ := fun input => input.details

/-- The actor of the C2 fixtures. -/
def actorC2 : Audit.Actor := ⟨"u1", "system", "sys", none, none⟩

/-- An honest two-entry in-memory ledger. -/
def ledgerC2 : Audit.AuditState ℕ :=
  Audit.runAppends hashC2 id (Audit.initState ℕ)
    [⟨"a1", "t1", "EVENT", actorC2, 7⟩, ⟨"a2", "t2", "EVENT", actorC2, 9⟩]

/-- The first entry of `ledgerC2` as persisted. -/
def entryC2first : Audit.Entry ℕ := ⟨"a1", "t1", "EVENT", actorC2, 7, .genesis, 7⟩

/-- The second entry of `ledgerC2` as persisted. -/
def entryC2second : Audit.Entry ℕ := ⟨"a2", "t2", "EVENT", actorC2, 9, .digest 7, 9⟩

/-- C2 counterexample: tampering with entry 0 and tampering with entry 1
produce the identical verification result `{isValid := false,
totalEntries := 2}`, although the first failing positions differ (0
versus 1) — so `verifyIntegrity`'s return value does not report the
index/position of the first failing entry, contrary to the claim. -/
theorem C2_verify_counterexample :
    Audit.verifyIntegrity hashC2
        ⟨ledgerC2.auditLog.set 0 { entryC2first with details := 8 }, ledgerC2.previousHash⟩ =
      Audit.verifyIntegrity hashC2
        ⟨ledgerC2.auditLog.set 1 { entryC2second with details := 5 }, ledgerC2.previousHash⟩ ∧
    Audit.verifyIntegrity hashC2
        ⟨ledgerC2.auditLog.set 0 { entryC2first with details := 8 }, ledgerC2.previousHash⟩ =
      { isValid := false, totalEntries := 2 } ∧
    Audit.firstFailingFrom hashC2 .genesis 0
        (ledgerC2.auditLog.set 0 { entryC2first with details := 8 }) = some 0 ∧
    Audit.firstFailingFrom hashC2 .genesis 0
        (ledgerC2.auditLog.set 1 { entryC2second with details := 5 }) = some 1 := by
  refine ⟨?_, ?_, ?_, ?_⟩ <;> decide

/-- Witness for C2 (amended) at concrete inputs: an honest single-append
ledger verifies, and tampering with entry 0 of `ledgerC2` is detected. -/
theorem C2_verify_witness :
    Audit.verifyIntegrity hashC2
        (Audit.runAppends hashC2 id (Audit.initState ℕ)
          [⟨"a1", "t1", "EVENT", actorC2, 7⟩]) =
      { isValid := true, totalEntries := 1 } ∧
    Audit.verifyIntegrity hashC2
        { auditLog := ledgerC2.auditLog.set 0 { entryC2first with details := 8 },
          previousHash := ledgerC2.previousHash } =
      { isValid := false, totalEntries := ledgerC2.auditLog.length } :=
  ⟨(C2_verify_integrity_amended ℕ hashC2 id).1 [⟨"a1", "t1", "EVENT", actorC2, 7⟩],
   ((C2_verify_integrity_amended ℕ hashC2 id).2 ledgerC2.auditLog ledgerC2.previousHash 0
      entryC2first 8 (by decide) (by decide) (by decide)).1⟩

/-! ## C3 -/

namespace AuditDb

open Audit (HashVal)

section Lemmas

variable {Details : Type} (hashFn : DbHashInput Details → ℕ) (sanitizeDetails : Details → Details)

theorem dbTailHash_append (p : HashVal) (log : List (DbEntry Details)) (e : DbEntry Details) :
    tailHash p (log ++ [e]) = .digest e.hash := by
  induction log generalizing p with
  | nil => rfl
  | cons x xs ih =>
    simp only [List.cons_append, tailHash]
    exact ih _

theorem chainFrom_append (p : HashVal) (log : List (DbEntry Details)) (e : DbEntry Details)
    (hchain : chainFrom p log) (hlink : e.previousHash = tailHash p log) :
    chainFrom p (log ++ [e]) := by
  induction log generalizing p with
  | nil =>
    simp only [tailHash] at hlink
    exact ⟨hlink, trivial⟩
  | cons x xs ih =>
    obtain ⟨hx, hxs⟩ := hchain
    simp only [tailHash] at hlink
    exact ⟨hx, ih _ hxs hlink⟩

theorem runAppends_append_one (st : DbState Details) (ops : List (DbAppendOp Details))
    (op : DbAppendOp Details) :
    runAppends hashFn sanitizeDetails st (ops ++ [op]) =
      (createLogEntry hashFn sanitizeDetails (runAppends hashFn sanitizeDetails st ops)
        op.timestamp op.actionType op.actorId op.request op.ambulance op.details).2 := by
  induction ops generalizing st with
  | nil => rfl
  | cons o os ih =>
    simp only [List.cons_append, runAppends]
    exact ih _

theorem runAppends_chain_spec (st : DbState Details) (ops : List (DbAppendOp Details))
    (hchain : chainFrom .genesis st.entries)
    (htail : getPreviousHash st = tailHash .genesis st.entries) :
    chainFrom .genesis (runAppends hashFn sanitizeDetails st ops).entries ∧
    getPreviousHash (runAppends hashFn sanitizeDetails st ops) =
      tailHash .genesis (runAppends hashFn sanitizeDetails st ops).entries := by
  induction ops generalizing st with
  | nil => exact ⟨hchain, htail⟩
  | cons op ops ih =>
    simp only [runAppends]
    refine ih _ ?_ ?_
    · refine chainFrom_append .genesis st.entries _ hchain ?_
      exact htail ▸ rfl
    · rw [show (createLogEntry hashFn sanitizeDetails st op.timestamp op.actionType
          op.actorId op.request op.ambulance op.details).2.entries =
          st.entries ++ [(createLogEntry hashFn sanitizeDetails st op.timestamp op.actionType
          op.actorId op.request op.ambulance op.details).1] from rfl, dbTailHash_append]
      rfl

theorem chainFrom_get? (p : HashVal) (log : List (DbEntry Details)) (h : chainFrom p log) :
    (∀ e : DbEntry Details, log.get? 0 = some e → e.previousHash = p) ∧
    (∀ (i : ℕ) (e₁ e₂ : DbEntry Details), log.get? i = some e₁ →
      log.get? (i + 1) = some e₂ → e₂.previousHash = .digest e₁.hash) := by
  induction log generalizing p with
  | nil => exact ⟨by simp, by simp⟩
  | cons x xs ih =>
    obtain ⟨hx, hxs⟩ := h
    obtain ⟨ihead, ilink⟩ := ih _ hxs
    constructor
    · intro e he
      have : x = e := by simpa using he
      exact this ▸ hx
    · intro i e₁ e₂ h1 h2
      match i with
      | 0 =>
        have hx1 : x = e₁ := by simpa using h1
        have hx2 : xs.get? 0 = some e₂ := by simpa using h2
        exact hx1 ▸ ihead e₂ hx2
      | Nat.succ j =>
        exact ilink j e₁ e₂ (by simpa using h1) (by simpa using h2)

end Lemmas

end AuditDb

/-- C3: for every sequence of `createLogEntry` calls starting from an
empty ledger, the persisted entries satisfy the chain invariant — the
first entry's `previousHash` is the `'genesis'` marker and every later
entry's `previousHash` is its predecessor's hash — and appending never
mutates an already-written entry: each call extends the persisted list
by exactly its own new entry, leaving all earlier entries unchanged. -/
theorem C3_audit_chain_invariant (Details : Type)
    (hashFn : AuditDb.DbHashInput Details → ℕ) (sanitizeDetails : Details → Details)
    (ops : List (AuditDb.DbAppendOp Details)) :
    (∀ e : AuditDb.DbEntry Details,
      (AuditDb.runAppends hashFn sanitizeDetails (AuditDb.initState Details) ops).entries.get? 0 =
        some e → e.previousHash = .genesis) ∧
    (∀ (i : ℕ) (e₁ e₂ : AuditDb.DbEntry Details),
      (AuditDb.runAppends hashFn sanitizeDetails (AuditDb.initState Details) ops).entries.get? i =
        some e₁ →
      (AuditDb.runAppends hashFn sanitizeDetails (AuditDb.initState Details) ops).entries.get?
        (i + 1) = some e₂ →
      e₂.previousHash = .digest e₁.hash) ∧
    (∀ op : AuditDb.DbAppendOp Details,
      (AuditDb.runAppends hashFn sanitizeDetails (AuditDb.initState Details) (ops ++ [op])).entries =
        (AuditDb.runAppends hashFn sanitizeDetails (AuditDb.initState Details) ops).entries ++
          [(AuditDb.createLogEntry hashFn sanitizeDetails
              (AuditDb.runAppends hashFn sanitizeDetails (AuditDb.initState Details) ops)
              op.timestamp op.actionType op.actorId op.request op.ambulance op.details).1]) := by
  have hspec := AuditDb.runAppends_chain_spec hashFn sanitizeDetails
    (AuditDb.initState Details) ops trivial rfl
  obtain ⟨ihead, ilink⟩ := AuditDb.chainFrom_get? Audit.HashVal.genesis _ hspec.1
  refine ⟨ihead, ilink, ?_⟩
  intro op
  rw [AuditDb.runAppends_append_one]
  rfl
